import Mathlib

/-!
Shallow embedding of `scripts/bedrock_invoke_agent.py`.

The script resolves a prompt from environment variables and optional files,
invokes a managed agent endpoint, drains its streamed response into a text
buffer, and writes a JSON diagnostic file plus a plain-text result file.
External effects (environment, filesystem, the outcome of the network call, and
write success/failure) are passed in explicitly; the embedding mirrors the
control flow and string construction of the source.
-/

namespace Bedrock

/-- Python truthiness of an `os.getenv` result: `None` and `""` are falsy. -/
def pyTruthy : Option String → Bool
  | none => false
  | some s => s ≠ ""

/-- ASCII whitespace recognized by the Python `str.strip()` method (the script only
ever strips ASCII text around these claims). -/
def pyIsSpace (c : Char) : Bool :=
  c = ' ' || c = '\t' || c = '\n' || c = '\r' || c = Char.ofNat 11 || c = Char.ofNat 12

/-- Python `str.strip()`: drop leading and trailing whitespace. -/
def pyStrip (s : String) : String :=
  String.mk (((s.data.dropWhile pyIsSpace).reverse.dropWhile pyIsSpace).reverse)

/-- A single-quote character, used by Python `repr` of strings. -/
def sq : String := String.singleton (Char.ofNat 39)

/-- Python `f"{keys}"` rendering of a list of plain strings:
`[]`, or the items single-quoted and comma-separated. -/
def pyListRepr (keys : List String) : String :=
  "[" ++ String.intercalate ", " (keys.map (fun k => sq ++ k ++ sq)) ++ "]"

/-- Minimal JSON string escaping as done by `json.dumps` on the plain
strings the script produces. -/
def jsonEscChar (c : Char) : String :=
  if c = '\\' then "\\\\"
  else if c = '\"' then "\\\""
  else if c = '\n' then "\\n"
  else if c = '\r' then "\\r"
  else if c = '\t' then "\\t"
  else String.singleton c

/-- JSON string literal for `s`. -/
def jsonStr (s : String) : String :=
  "\"" ++ String.join (s.data.map jsonEscChar) ++ "\""

/-- `json.dumps` rendering of a list of strings. -/
def jsonStrList (keys : List String) : String :=
  "[" ++ String.intercalate ", " (keys.map jsonStr) ++ "]"

/-- The environment variables the script reads (absent = unset). -/
structure Env where
  PROMPT : Option String
  PROMPT_FILE : Option String
  AGENT_ID : Option String
  AGENT_ALIAS_ID : Option String
  AWS_REGION : Option String
  AWS_DEFAULT_REGION : Option String
  REPO_OWNER : Option String
  REPO_NAME : Option String
  REPO_FULL : Option String
  PR_NUMBER : Option String
  PR_URL : Option String
  HEAD_REF : Option String
  BASE_REF : Option String
  HEAD_SHA : Option String
deriving Repr

/-- An environment with nothing set. -/
def Env.empty : Env :=
  ⟨none, none, none, none, none, none, none, none, none, none, none, none, none, none⟩

/-- The readable filesystem: an association of paths to file contents. -/
structure FS where
  files : List (String × String)
deriving Repr

/-- `os.path.isfile`. -/
def FS.isfile (fs : FS) (p : String) : Bool :=
  (fs.files.lookup p).isSome

/-- Reading an existing file (`open(p).read()`); the script only reads after
an `isfile` check. -/
def FS.read (fs : FS) (p : String) : String :=
  (fs.files.lookup p).getD ""

/-- `getenv_required` (source lines 26-31): exit code 2 when the variable is
unset or empty, else its value. -/
def getenv_required (v : Option String) : Except Nat String :=
  if pyTruthy v then Except.ok (v.getD "") else Except.error 2

/-- `os.path.join("scripts", "prompts", "pr_improve_agent_ja.md")`. -/
def default_prompt_file : String := "scripts/prompts/pr_improve_agent_ja.md"

/-- Steps 2-3 of `resolve_prompt`: default repo file, else required `PROMPT`. -/
def resolve_prompt_fallback (env : Env) (fs : FS) : Except Nat String :=
  if fs.isfile default_prompt_file then Except.ok (fs.read default_prompt_file)
  else getenv_required env.PROMPT

/-- `resolve_prompt` (source lines 34-58): an existing file named by a
non-empty `PROMPT_FILE`, else the default repo file, else the required
`PROMPT` variable. -/
def resolve_prompt (env : Env) (fs : FS) : Except Nat String :=
  match env.PROMPT_FILE with
  | some pfile =>
    if pfile ≠ "" && fs.isfile pfile then Except.ok (fs.read pfile)
    else resolve_prompt_fallback env fs
  | none => resolve_prompt_fallback env fs

/-- Python `s.split("/", 1)` packaged as (head, rest). -/
def split_once_slash (s : String) : String × String :=
  match s.splitOn "/" with
  | [] => (s, "")
  | [a] => (a, "")
  | a :: rest => (a, String.intercalate "/" rest)

/-- `append_repo_context` (source lines 61-99): append a repository/PR
context block to the prompt when any context variable is set. -/
def append_repo_context (env : Env) (prompt_text : String) : String :=
  let owner0 := env.REPO_OWNER
  let name0 := env.REPO_NAME
  let full := env.REPO_FULL
  let derive :=
    ((!pyTruthy owner0) || (!pyTruthy name0)) && pyTruthy full
      && (full.getD "").contains '/'
  let ownerName :=
    if derive then
      let parts := split_once_slash (full.getD "")
      ((if pyTruthy owner0 then owner0 else some parts.1),
       (if pyTruthy name0 then name0 else some parts.2))
    else (owner0, name0)
  let owner := ownerName.1
  let name := ownerName.2
  let anyCtx := pyTruthy owner || pyTruthy name || pyTruthy env.PR_NUMBER
    || pyTruthy env.HEAD_REF || pyTruthy env.BASE_REF || pyTruthy env.HEAD_SHA
    || pyTruthy env.PR_URL
  let lines : List String :=
    if anyCtx then
      ["\n### 対象リポジトリ情報"]
      ++ (if pyTruthy owner || pyTruthy name then
            let repo_disp :=
              (if pyTruthy owner then owner.getD "" else "(unknown)") ++ "/"
                ++ (if pyTruthy name then name.getD "" else "(unknown)")
            ["- 組織/リポジトリ: " ++ repo_disp]
          else [])
      ++ (if pyTruthy env.PR_NUMBER then ["- PR番号: " ++ env.PR_NUMBER.getD ""] else [])
      ++ (if pyTruthy env.PR_URL then ["- PR URL: " ++ env.PR_URL.getD ""] else [])
      ++ (if pyTruthy env.HEAD_REF && pyTruthy env.BASE_REF then
            ["- ブランチ: " ++ env.HEAD_REF.getD "" ++ " → " ++ env.BASE_REF.getD ""]
          else if pyTruthy env.HEAD_REF then
            ["- ブランチ: " ++ env.HEAD_REF.getD ""]
          else [])
      ++ (if pyTruthy env.HEAD_SHA then ["- HEAD SHA: " ++ env.HEAD_SHA.getD ""] else [])
    else []
  prompt_text ++ (if lines ≠ [] then "\n" ++ String.intercalate "\n" lines else "")

/-- `region = AWS_REGION or AWS_DEFAULT_REGION or "us-east-1"` (line 235). -/
def region_of (env : Env) : String :=
  if pyTruthy env.AWS_REGION then env.AWS_REGION.getD ""
  else if pyTruthy env.AWS_DEFAULT_REGION then env.AWS_DEFAULT_REGION.getD ""
  else "us-east-1"

/-- A UTF-8 continuation byte (`0x80..0xBF`). -/
def isCont (b : Nat) : Bool := 0x80 ≤ b && b ≤ 0xBF

/-- Valid first continuation ranges for 3-byte leads (excluding overlongs
and surrogates, as the CPython decoder does). -/
def isCont3First (lead c1 : Nat) : Bool :=
  if lead = 0xE0 then 0xA0 ≤ c1 && c1 ≤ 0xBF
  else if lead = 0xED then 0x80 ≤ c1 && c1 ≤ 0x9F
  else isCont c1

/-- Valid first continuation ranges for 4-byte leads (excluding overlongs
and codepoints above U+10FFFF). -/
def isCont4First (lead c1 : Nat) : Bool :=
  if lead = 0xF0 then 0x90 ≤ c1 && c1 ≤ 0xBF
  else if lead = 0xF4 then 0x80 ≤ c1 && c1 ≤ 0x8F
  else isCont c1

/-- Fueled worker for `bytes.decode("utf-8", errors="ignore")`: invalid
bytes and truncated sequences are skipped (CPython skips the maximal valid
subpart and resumes at the first offending byte). Fuel bounds the number of
bytes consumed; `fuel = length` suffices. -/
def utf8IgnoreAux : Nat → List Nat → List Char
  | 0, _ => []
  | _ + 1, [] => []
  | fuel + 1, b :: rest =>
    if b < 0x80 then Char.ofNat b :: utf8IgnoreAux fuel rest
    else if 0xC2 ≤ b && b ≤ 0xDF then
      match rest with
      | [] => []
      | c1 :: rest2 =>
        if isCont c1 then
          Char.ofNat ((b - 0xC0) * 64 + (c1 - 0x80)) :: utf8IgnoreAux fuel rest2
        else utf8IgnoreAux fuel (c1 :: rest2)
    else if 0xE0 ≤ b && b ≤ 0xEF then
      match rest with
      | [] => []
      | c1 :: rest2 =>
        if isCont3First b c1 then
          match rest2 with
          | [] => []
          | c2 :: rest3 =>
            if isCont c2 then
              Char.ofNat ((b - 0xE0) * 4096 + (c1 - 0x80) * 64 + (c2 - 0x80))
                :: utf8IgnoreAux fuel rest3
            else utf8IgnoreAux fuel (c2 :: rest3)
        else utf8IgnoreAux fuel (c1 :: rest2)
    else if 0xF0 ≤ b && b ≤ 0xF4 then
      match rest with
      | [] => []
      | c1 :: rest2 =>
        if isCont4First b c1 then
          match rest2 with
          | [] => []
          | c2 :: rest3 =>
            if isCont c2 then
              match rest3 with
              | [] => []
              | c3 :: rest4 =>
                if isCont c3 then
                  Char.ofNat ((b - 0xF0) * 262144 + (c1 - 0x80) * 4096
                      + (c2 - 0x80) * 64 + (c3 - 0x80))
                    :: utf8IgnoreAux fuel rest4
                else utf8IgnoreAux fuel (c3 :: rest4)
            else utf8IgnoreAux fuel (c2 :: rest3)
        else utf8IgnoreAux fuel (c1 :: rest2)
    else utf8IgnoreAux fuel rest

/-- `bytes.decode("utf-8", errors="ignore")` over a list of byte values. -/
def utf8DecodeIgnore (bs : List Nat) : String :=
  String.mk (utf8IgnoreAux bs.length bs)

/-- Fueled worker for a STRICT UTF-8 decode (fails on any invalid byte).
Used only to express what "UTF-8 decoding fails" means. -/
def utf8StrictAux : Nat → List Nat → Option (List Char)
  | 0, [] => some []
  | 0, _ :: _ => none
  | _ + 1, [] => some []
  | fuel + 1, b :: rest =>
    if b < 0x80 then (utf8StrictAux fuel rest).map (Char.ofNat b :: ·)
    else if 0xC2 ≤ b && b ≤ 0xDF then
      match rest with
      | c1 :: rest2 =>
        if isCont c1 then
          (utf8StrictAux fuel rest2).map (Char.ofNat ((b - 0xC0) * 64 + (c1 - 0x80)) :: ·)
        else none
      | [] => none
    else if 0xE0 ≤ b && b ≤ 0xEF then
      match rest with
      | c1 :: c2 :: rest3 =>
        if isCont3First b c1 && isCont c2 then
          (utf8StrictAux fuel rest3).map
            (Char.ofNat ((b - 0xE0) * 4096 + (c1 - 0x80) * 64 + (c2 - 0x80)) :: ·)
        else none
      | _ => none
    else if 0xF0 ≤ b && b ≤ 0xF4 then
      match rest with
      | c1 :: c2 :: c3 :: rest4 =>
        if isCont4First b c1 && isCont c2 && isCont c3 then
          (utf8StrictAux fuel rest4).map
            (Char.ofNat ((b - 0xF0) * 262144 + (c1 - 0x80) * 4096
                + (c2 - 0x80) * 64 + (c3 - 0x80)) :: ·)
        else none
      | _ => none
    else none

/-- Strict UTF-8 decode: `some` text iff the bytes are well-formed UTF-8. -/
def utf8DecodeStrict? (bs : List Nat) : Option String :=
  (utf8StrictAux bs.length bs).map String.mk

/-- Base64 value of an alphabet byte, `none` for non-alphabet bytes. -/
def b64byteVal (b : Nat) : Option Nat :=
  if 65 ≤ b && b ≤ 90 then some (b - 65)
  else if 97 ≤ b && b ≤ 122 then some (b - 71)
  else if 48 ≤ b && b ≤ 57 then some (b + 4)
  else if b = 43 then some 62
  else if b = 47 then some 63
  else none

/-- Repack 6-bit groups into bytes, dropping a trailing partial byte. -/
def sextetsToBytes : List Nat → List Nat
  | a :: b :: c :: d :: rest =>
    (a * 4 + b / 16) :: ((b % 16) * 16 + c / 4) :: ((c % 4) * 64 + d) :: sextetsToBytes rest
  | [a, b] => [a * 4 + b / 16]
  | [a, b, c] => [a * 4 + b / 16, (b % 16) * 16 + c / 4]
  | _ => []

/-- `base64.b64decode` over byte values: non-alphabet bytes are discarded,
and the kept length (padding included) must be a multiple of four, else the
call raises (`none`). -/
def b64decodeBytes? (bs : List Nat) : Option (List Nat) :=
  let kept := bs.filter (fun b => (b64byteVal b).isSome || b = 61)
  if kept.length % 4 ≠ 0 then none
  else some (sextetsToBytes (bs.filterMap b64byteVal))

/-- `base64.b64decode` applied to a `str`: the string must be ASCII, then
its bytes are decoded. -/
def b64decodeStr? (s : String) : Option (List Nat) :=
  if s.data.any (fun c => 128 ≤ c.toNat) then none
  else b64decodeBytes? (s.data.map Char.toNat)

/-- The value found under `event["chunk"]["bytes"]`: either a
`bytes`/`bytearray` object (a list of byte values) or some other value,
whose only case exercised by the SDK is a string. -/
inductive Payload where
  | bytes (bs : List Nat)
  | str (s : String)
deriving Repr, DecidableEq

/-- The dict under the `"chunk"` key of an event; `"bytes"` may be absent
(the source defaults it to `b""`). -/
structure ChunkField where
  bytes? : Option Payload
deriving Repr, DecidableEq

/-- One event of the agent response stream: an optional `"chunk"` field
and the key list of the event (used only in diagnostics). -/
structure AgentEvent where
  chunk? : Option ChunkField
  keys : List String
deriving Repr, DecidableEq

/-- The streamed event sequence. `err?` is the message of an
`EventStreamError` raised by the iterator after yielding `events`;
`none` means the stream completed normally. -/
structure AgentStream where
  events : List AgentEvent
  err? : Option String
deriving Repr, DecidableEq

/-- The response dict of the `invoke_agent` SDK call: the stream may sit
under `"responseStream"` or `"completion"`, and `keys` lists the keys of the response dict for diagnostics. -/
structure AgentResponse where
  responseStream? : Option AgentStream
  completion? : Option AgentStream
  keys : List String
deriving Repr, DecidableEq

/-- `resp.get("responseStream") or resp.get("completion")` (line 166). -/
def AgentResponse.stream? (resp : AgentResponse) : Option AgentStream :=
  resp.responseStream?.orElse (fun _ => resp.completion?)

/-- Decoding of one chunk payload (source lines 188-195): a bytes payload
is decoded as UTF-8 with errors ignored; any other payload goes through
`base64.b64decode` and, if that raises, `str(b)`. -/
def decode_chunk_payload : Payload → String
  | .bytes bs => utf8DecodeIgnore bs
  | .str s =>
    match b64decodeStr? s with
    | some bs => utf8DecodeIgnore bs
    | none => s

/-- The note recorded for a non-chunk event (line 203). -/
def non_chunk_note (keys : List String) : String :=
  "[non-chunk event] keys=" ++ pyListRepr keys

/-- The stream-draining loop (lines 185-206): collect decoded chunk texts
and non-chunk notes, in arrival order. -/
def drain_events : List AgentEvent → List String × List String
  | [] => ([], [])
  | ev :: rest =>
    let r := drain_events rest
    match ev.chunk? with
    | some cf =>
      (decode_chunk_payload (cf.bytes?.getD (Payload.bytes [])) :: r.1, r.2)
    | none => (r.1, non_chunk_note ev.keys :: r.2)

/-- The decoded texts of exactly the events carrying a `"chunk"` field, in
arrival order. -/
def chunkTexts (events : List AgentEvent) : List String :=
  events.filterMap
    (fun ev => ev.chunk?.map (fun cf => decode_chunk_payload (cf.bytes?.getD (Payload.bytes []))))

/-- JSON note returned when the response has no stream (line 176). -/
def no_stream_json (keys : List String) : String :=
  "\x7b\"note\": \"Agent returned no stream\", \"response_keys\": " ++ jsonStrList keys ++ "\x7d"

/-- Human-readable placeholder returned when the response has no stream
(lines 177-180). -/
def no_stream_text (keys : List String) : String :=
  "Agentのレスポンスにストリームがありませんでした。 response_keys=" ++ pyListRepr keys

/-- The explanatory message appended on an `EventStreamError` (line 214). -/
def stream_error_suffix (e : String) : String :=
  "Agentのストリーム処理でエラーが発生しました: " ++ e ++ ". 後で再試行してください。"

/-- The JSON blob returned on an `EventStreamError` (lines 216-220). -/
def stream_error_json (e : String) (notes : List String) : String :=
  "\x7b\"error\": \"EventStreamError\", \"message\": " ++ jsonStr e
    ++ ", \"non_chunk_events\": " ++ jsonStrList notes ++ "\x7d"

/-- `invoke_agent` (source lines 142-226), with the SDK response passed in
as the answer of the external world. The session id (line 145) only names the
upstream conversation and does not influence the returned pair. Returns
the `(json_dump, text)` pair of the source. -/
def invoke_agent (prompt region agent_id agent_alias_id : String)
    (resp : AgentResponse) : Option String × String :=
  match resp.stream? with
  | none => (some (no_stream_json resp.keys), no_stream_text resp.keys)
  | some st =>
    let r := drain_events st.events
    match st.err? with
    | some e =>
      let text_partial := pyStrip (String.join r.1)
      let err_msg :=
        (if text_partial ≠ "" then text_partial ++ "\n\n" else "")
          ++ stream_error_suffix e
      (some (stream_error_json e r.2), err_msg)
    | none => (none, String.join r.1)

/-- Modelled from the spec: claim C7 reads "the chunk byte payload is
decoded as UTF-8, and base64 decoding is applied as the fallback when UTF-8
decoding fails". This decoder follows those words: strict UTF-8 first, and
on failure a base64 decode of the same payload (itself fallible). It exists
only to be compared with `decode_chunk_payload`, the decoder of the source. -/
def claim7_decode : Payload → Option String
  | .bytes bs =>
    match utf8DecodeStrict? bs with
    | some s => some s
    | none => (b64decodeBytes? bs).map utf8DecodeIgnore
  | .str s => some s

/-- Outcome of the `invoke_agent` call as seen by `main` (lines 259-266):
either the SDK returned a response, or it raised; `exn` carries the
message and formatted traceback of the exception. -/
inductive AgentOutcome where
  | ok (resp : AgentResponse)
  | exn (msg trace : String)
deriving Repr

/-- Whether each output-file write succeeds (an `open`/`write` that raises
is a `false`). -/
structure WriteOutcome where
  jsonOk : Bool
  textOk : Bool
deriving Repr, DecidableEq

/-- Observable result of one run of `main` (plus `sys.exit(main())`):
the exit code, which upstream operations were invoked, which writes were
attempted, and the contents each output file holds afterwards (`none` when
the write failed or was never attempted). `modelCalled` records an
invocation of a foundation-model endpoint: the source contains none (its
`invoke_model` was removed, line 229), so no branch sets it. -/
structure RunResult where
  exitCode : Nat
  agentCalled : Bool
  modelCalled : Bool
  jsonWriteAttempted : Bool
  textWriteAttempted : Bool
  jsonFileContents : Option String
  textFileContents : Option String
deriving Repr, DecidableEq

/-- Fixed text when `AGENT_ID`/`AGENT_ALIAS_ID` are not both set (line 268). -/
def missing_agent_text : String :=
  "AGENT_ID/AGENT_ALIAS_ID が未設定のため、Agent呼び出しを実行しませんでした。"

/-- Fixed JSON when `AGENT_ID`/`AGENT_ALIAS_ID` are not both set (line 269). -/
def missing_agent_json : String :=
  "\x7b\"error\": \"missing agent parameters\"\x7d"

/-- Error text when the `invoke_agent` call raises (line 265). -/
def agent_fail_text (e : String) : String :=
  "Agent呼び出しに失敗しました。" ++ e ++ "\n詳細はログを確認してください。"

/-- Error JSON when the `invoke_agent` call raises (line 266). -/
def agent_fail_json (e trace : String) : String :=
  "\x7b\"error\": " ++ jsonStr e ++ ", \"trace\": " ++ jsonStr trace ++ "\x7d"

/-- Placeholder JSON when no diagnostic was produced (line 274). -/
def default_json_note : String :=
  "\x7b\"note\": \"Agent stream not serialized; see text file.\"\x7d"

/-- Placeholder text when the result text is empty or whitespace-only
(line 284). -/
def empty_text_placeholder : String :=
  "Bedrockの出力が空でした。詳細は Actions のログおよび bedrock_agent_output.json を確認してください。"

/-- The branching of `main` lines 258-269: `(json_dump, text, agentCalled)`.
The agent path runs only when both ids are truthy; there is no fallback to
a model invocation. -/
def computeResult (prompt region : String) (env : Env) (agent : AgentOutcome) :
    Option String × String × Bool :=
  if pyTruthy env.AGENT_ID && pyTruthy env.AGENT_ALIAS_ID then
    match agent with
    | .ok resp =>
      let r := invoke_agent prompt region (env.AGENT_ID.getD "") (env.AGENT_ALIAS_ID.getD "") resp
      (r.1, r.2, true)
    | .exn e tr => (some (agent_fail_json e tr), agent_fail_text e, true)
  else (some missing_agent_json, missing_agent_text, false)

/-- Lines 273-274: substitute the placeholder JSON when none was produced. -/
def finalizeJson (j : Option String) : String := j.getD default_json_note

/-- Lines 283-284: substitute the placeholder text when the result text is
empty or whitespace-only. -/
def finalizeText (t : String) : String :=
  if pyStrip t = "" then empty_text_placeholder else t

/-- `main` (source lines 232-296) plus the `sys.exit(main())` at the bottom:
resolve the prompt (exiting 2 before any upstream call when it is missing),
run the agent branch, then attempt both output writes independently and
return 0. `agent` is the answer of the upstream world and `w` tells which writes
succeed. Debug logging (`DEBUG_BEDROCK`) only writes to stderr and is
omitted. -/
def mainRun (env : Env) (fs : FS) (agent : AgentOutcome) (w : WriteOutcome) : RunResult :=
  match resolve_prompt env fs with
  | .error code =>
    { exitCode := code, agentCalled := false, modelCalled := false
      jsonWriteAttempted := false, textWriteAttempted := false
      jsonFileContents := none, textFileContents := none }
  | .ok prompt0 =>
    let prompt := append_repo_context env prompt0
    let r := computeResult prompt (region_of env) env agent
    let json_final := finalizeJson r.1
    let text_final := finalizeText r.2.1
    { exitCode := 0, agentCalled := r.2.2, modelCalled := false
      jsonWriteAttempted := true, textWriteAttempted := true
      jsonFileContents := if w.jsonOk then some json_final else none
      textFileContents := if w.textOk then some text_final else none }

/-! ## Helper lemmas -/

theorem drain_events_fst (evs : List AgentEvent) :
    (drain_events evs).1 = chunkTexts evs := by
  induction evs with
  | nil => rfl
  | cons ev rest ih =>
    unfold drain_events chunkTexts
    cases h : ev.chunk? <;>
      simp [h, List.filterMap_cons, ih, chunkTexts]

theorem append_ne_empty_left (a b : String) (h : a ≠ "") : a ++ b ≠ "" := by
  intro hab
  apply h
  have hd : a.data ++ b.data = ([] : List Char) := congrArg String.data hab
  have ha : a.data = [] := (List.append_eq_nil.mp hd).1
  cases a
  simp_all

theorem resolve_prompt_fallback_error (env : Env) (fs : FS) (c : Nat)
    (h : resolve_prompt_fallback env fs = Except.error c) : c = 2 := by
  unfold resolve_prompt_fallback getenv_required at h
  split at h
  · simp at h
  · split at h
    · simp at h
    · have h2 : (2 : Nat) = c := by simpa using h
      exact h2.symm

theorem resolve_prompt_error (env : Env) (fs : FS) (c : Nat)
    (h : resolve_prompt env fs = Except.error c) : c = 2 := by
  unfold resolve_prompt at h
  split at h
  · split at h
    · simp at h
    · exact resolve_prompt_fallback_error env fs c h
  · exact resolve_prompt_fallback_error env fs c h

/-! ## Claim C1 -/

/-- Concrete run for claim C1: a prompt is configured but neither agent
variable is set; the upstream world is irrelevant because nothing calls it. -/
def envC1 : Env := { Env.empty with PROMPT := some "hello" }

/-- C1 counterexample: with neither `AGENT_ID` nor `AGENT_ALIAS_ID` set, the
run completes (exit 0) without invoking any model endpoint — the claimed
"model-invocation path" is not used (it does not exist in the source); the
text output is the fixed no-agent message. This refutes the claim that the
model-invocation path is used exclusively. -/
theorem C1_counterexample :
    (mainRun envC1 ⟨[]⟩ (.exn "x" "t") ⟨true, true⟩).modelCalled = false
    ∧ (mainRun envC1 ⟨[]⟩ (.exn "x" "t") ⟨true, true⟩).agentCalled = false
    ∧ (mainRun envC1 ⟨[]⟩ (.exn "x" "t") ⟨true, true⟩).exitCode = 0
    ∧ (mainRun envC1 ⟨[]⟩ (.exn "x" "t") ⟨true, true⟩).textFileContents
        = some missing_agent_text := by decide

/-- C1 (amended): if neither `AGENT_ID` nor `AGENT_ALIAS_ID` is set, the
agent-invocation operation is never called, and no model invocation occurs
either (the script has no model path); when the prompt resolves, the run
produces the fixed placeholder text and the fixed error JSON. -/
theorem C1_amended (env : Env) (fs : FS) (agent : AgentOutcome) (w : WriteOutcome)
    (hA : env.AGENT_ID = none) (hB : env.AGENT_ALIAS_ID = none) :
    (mainRun env fs agent w).agentCalled = false
    ∧ (mainRun env fs agent w).modelCalled = false
    ∧ (∀ p, resolve_prompt env fs = Except.ok p →
        (mainRun env fs agent w).textFileContents
          = (if w.textOk then some missing_agent_text else none)
        ∧ (mainRun env fs agent w).jsonFileContents
          = (if w.jsonOk then some missing_agent_json else none)) := by
  have hfin : finalizeText missing_agent_text = missing_agent_text := by decide
  unfold mainRun
  cases h : resolve_prompt env fs with
  | error c => simp [h]
  | ok p0 =>
    simp only [h]
    unfold computeResult
    rw [hA, hB]
    simp [pyTruthy, finalizeJson, hfin]

/-- C1 witness: the amended theorem applied at the concrete C1 run. -/
theorem C1_witness :
    (mainRun envC1 ⟨[]⟩ (.exn "x" "t") ⟨false, true⟩).agentCalled = false
    ∧ (mainRun envC1 ⟨[]⟩ (.exn "x" "t") ⟨false, true⟩).textFileContents
        = some missing_agent_text
    ∧ (mainRun envC1 ⟨[]⟩ (.exn "x" "t") ⟨false, true⟩).jsonFileContents = none := by
  have h := C1_amended envC1 ⟨[]⟩ (.exn "x" "t") ⟨false, true⟩ rfl rfl
  have h2 := h.2.2 "hello" rfl
  exact ⟨h.1, by simpa using h2.1, by simpa using h2.2⟩

/-! ## Claim C2 -/

/-- C2: for every non-empty prompt and valid agent configuration, when the
stream is consumed without error, the text returned by `invoke_agent` is
the decoded payloads of exactly the chunk-carrying events, concatenated in
arrival order; non-chunk events contribute nothing. -/
theorem C2_text_is_ordered_chunk_join
    (prompt region agent_id agent_alias_id : String)
    (hp : prompt ≠ "") (ha : agent_id ≠ "") (hb : agent_alias_id ≠ "")
    (resp : AgentResponse) (st : AgentStream)
    (hs : resp.stream? = some st) (he : st.err? = none) :
    (invoke_agent prompt region agent_id agent_alias_id resp).2
      = String.join (chunkTexts st.events) := by
  unfold invoke_agent
  rw [hs]
  simp [he, drain_events_fst]

/-- Concrete stream for claim C2: chunk "Hel", a non-chunk trace event,
chunk "lo". -/
def stC2 : AgentStream :=
  ⟨[⟨some ⟨some (Payload.bytes [72, 101, 108])⟩, ["chunk"]⟩,
    ⟨none, ["trace"]⟩,
    ⟨some ⟨some (Payload.bytes [108, 111])⟩, ["chunk"]⟩], none⟩

/-- Concrete response for claim C2. -/
def respC2 : AgentResponse := ⟨some stC2, none, ["completion"]⟩

/-- C2 witness: the theorem applied at a concrete error-free stream whose
chunks spell "Hello" around a non-chunk event. -/
theorem C2_witness :
    (invoke_agent "hello" "us-east-1" "AID" "ALIAS" respC2).2 = "Hello" := by
  have h := C2_text_is_ordered_chunk_join "hello" "us-east-1" "AID" "ALIAS"
    (by decide) (by decide) (by decide) respC2 stC2 rfl rfl
  rw [h]
  decide

/-! ## Claim C3 -/

/-- Concrete stream for claim C3: one chunk "hi " (with a trailing space),
then an `EventStreamError`. -/
def stC3 : AgentStream :=
  ⟨[⟨some ⟨some (Payload.bytes [104, 105, 32])⟩, ["chunk"]⟩], some "boom"⟩

/-- Concrete response for claim C3. -/
def respC3 : AgentResponse := ⟨some stC3, none, ["completion"]⟩

/-- C3 counterexample: after a mid-stream error following one chunk "hi ",
the output text is NOT prefixed by the join of the received chunks —
the source strips the accumulated text first (line 211), so the trailing
space of "hi " is dropped and the join is no longer a prefix. -/
theorem C3_counterexample :
    List.isPrefixOf (String.join (chunkTexts stC3.events)).data
      (invoke_agent "p" "r" "a" "b" respC3).2.data = false := by decide

/-- C3 (amended): if a mid-stream transport error occurs after N chunks
were received, the output text is the whitespace-STRIPPED join of those N
decoded chunks (omitted entirely when it strips to empty), followed by a
blank line and an explanatory message; only leading and trailing whitespace
of the accumulated text can be lost. -/
theorem C3_amended
    (prompt region agent_id agent_alias_id : String)
    (resp : AgentResponse) (st : AgentStream) (e : String)
    (hs : resp.stream? = some st) (he : st.err? = some e) :
    (invoke_agent prompt region agent_id agent_alias_id resp).2
      = (if pyStrip (String.join (chunkTexts st.events)) ≠ "" then
           pyStrip (String.join (chunkTexts st.events)) ++ "\n\n"
         else "")
        ++ stream_error_suffix e := by
  unfold invoke_agent
  rw [hs]
  simp [he, drain_events_fst]

/-- C3 witness: the amended theorem applied at the concrete one-chunk
errored stream; the stripped partial text "hi" survives in front of the
explanatory message. -/
theorem C3_witness :
    (invoke_agent "p" "r" "a" "b" respC3).2
      = "hi\n\n" ++ stream_error_suffix "boom" := by
  have h := C3_amended "p" "r" "a" "b" respC3 stC3 "boom" rfl rfl
  rw [h]
  decide

/-! ## Claim C4 -/

/-- C4: whenever configuration validation (prompt resolution) succeeds, the
process exits 0 after attempting both output writes, regardless of the
upstream outcome and of write failures; and the only failing exit is code 2
when prompt resolution fails, in which case nothing upstream was called and
no write was attempted. -/
theorem C4_exit_policy (env : Env) (fs : FS) (agent : AgentOutcome) (w : WriteOutcome) :
    ((∃ p, resolve_prompt env fs = Except.ok p) →
       (mainRun env fs agent w).exitCode = 0
       ∧ (mainRun env fs agent w).jsonWriteAttempted = true
       ∧ (mainRun env fs agent w).textWriteAttempted = true)
    ∧ (∀ c, resolve_prompt env fs = Except.error c →
       c = 2
       ∧ (mainRun env fs agent w).exitCode = 2
       ∧ (mainRun env fs agent w).agentCalled = false
       ∧ (mainRun env fs agent w).jsonWriteAttempted = false
       ∧ (mainRun env fs agent w).textWriteAttempted = false) := by
  constructor
  · rintro ⟨p, hp⟩
    unfold mainRun
    rw [hp]
    exact ⟨rfl, rfl, rfl⟩
  · intro c hc
    have h2 := resolve_prompt_error env fs c hc
    subst h2
    unfold mainRun
    rw [hc]
    exact ⟨rfl, rfl, rfl, rfl, rfl⟩

/-- C4 witness: the theorem applied at two concrete runs — one with a
configured prompt but a failing upstream call (exit 0, both writes
attempted), and one with no configuration at all (exit 2, nothing
attempted). -/
theorem C4_witness :
    (mainRun envC1 ⟨[]⟩ (.exn "network down" "tb") ⟨true, true⟩).exitCode = 0
    ∧ (mainRun envC1 ⟨[]⟩ (.exn "network down" "tb") ⟨true, true⟩).jsonWriteAttempted = true
    ∧ (mainRun Env.empty ⟨[]⟩ (.exn "network down" "tb") ⟨true, true⟩).exitCode = 2
    ∧ (mainRun Env.empty ⟨[]⟩ (.exn "network down" "tb") ⟨true, true⟩).textWriteAttempted = false := by
  have h1 := (C4_exit_policy envC1 ⟨[]⟩ (.exn "network down" "tb") ⟨true, true⟩).1
    ⟨"hello", rfl⟩
  have h2 := (C4_exit_policy Env.empty ⟨[]⟩ (.exn "network down" "tb") ⟨true, true⟩).2
    2 rfl
  exact ⟨h1.1, h1.2.1, h2.2.1, h2.2.2.2.2⟩

/-! ## Claim C5 -/

/-- C5: if `PROMPT` is unset or empty and no prompt file resolves (no
existing file named by `PROMPT_FILE` and no default prompt file), the
process exits with code 2 and neither output file is written. -/
theorem C5_missing_prompt_exits_two (env : Env) (fs : FS)
    (agent : AgentOutcome) (w : WriteOutcome)
    (hP : pyTruthy env.PROMPT = false)
    (hPF : ∀ p, env.PROMPT_FILE = some p → p = "" ∨ fs.isfile p = false)
    (hD : fs.isfile default_prompt_file = false) :
    (mainRun env fs agent w).exitCode = 2
    ∧ (mainRun env fs agent w).jsonWriteAttempted = false
    ∧ (mainRun env fs agent w).textWriteAttempted = false
    ∧ (mainRun env fs agent w).jsonFileContents = none
    ∧ (mainRun env fs agent w).textFileContents = none := by
  have hfb : resolve_prompt_fallback env fs = Except.error 2 := by
    unfold resolve_prompt_fallback getenv_required
    rw [hD, hP]
    simp
  have hres : resolve_prompt env fs = Except.error 2 := by
    unfold resolve_prompt
    cases hpf : env.PROMPT_FILE with
    | none => exact hfb
    | some p =>
      rcases hPF p hpf with h | h
      · subst h
        simpa using hfb
      · simp [h, hfb]
  unfold mainRun
  rw [hres]
  exact ⟨rfl, rfl, rfl, rfl, rfl⟩

/-- Concrete environment for claim C5: `PROMPT` empty, `PROMPT_FILE` naming
a file that does not exist. -/
def envC5 : Env := { Env.empty with PROMPT := some "", PROMPT_FILE := some "missing.md" }

/-- C5 witness: the theorem applied at the concrete unconfigured run. -/
theorem C5_witness :
    (mainRun envC5 ⟨[("other.md", "x")]⟩ (.exn "x" "t") ⟨true, true⟩).exitCode = 2
    ∧ (mainRun envC5 ⟨[("other.md", "x")]⟩ (.exn "x" "t") ⟨true, true⟩).textFileContents = none := by
  have h := C5_missing_prompt_exits_two envC5 ⟨[("other.md", "x")]⟩ (.exn "x" "t") ⟨true, true⟩
    rfl
    (by intro p hp
        have hp2 : p = "missing.md" := by
          have : (some "missing.md" : Option String) = some p := hp
          simpa using this.symm
        subst hp2
        exact Or.inr rfl)
    rfl
  exact ⟨h.1, h.2.2.2.2⟩

/-! ## Claim C6 -/

/-- C6: if the agent response contains no stream field at all (neither
`responseStream` nor `completion`), `invoke_agent` returns the structured
JSON note as the diagnostic and a non-empty human-readable placeholder as
the text, so the two outputs are never both empty. -/
theorem C6_no_stream_placeholders
    (prompt region agent_id agent_alias_id : String) (resp : AgentResponse)
    (h1 : resp.responseStream? = none) (h2 : resp.completion? = none) :
    (invoke_agent prompt region agent_id agent_alias_id resp).1
      = some (no_stream_json resp.keys)
    ∧ (invoke_agent prompt region agent_id agent_alias_id resp).2
      = no_stream_text resp.keys
    ∧ (invoke_agent prompt region agent_id agent_alias_id resp).2 ≠ ""
    ∧ no_stream_json resp.keys ≠ "" := by
  have hs : resp.stream? = none := by
    unfold AgentResponse.stream?
    rw [h1, h2]
    rfl
  have htext : ∀ ks : List String, no_stream_text ks ≠ "" := by
    intro ks
    unfold no_stream_text
    exact append_ne_empty_left _ _ (by decide)
  have hjson : no_stream_json resp.keys ≠ "" := by
    unfold no_stream_json
    exact append_ne_empty_left _ _ (append_ne_empty_left _ _ (by decide))
  unfold invoke_agent
  rw [hs]
  exact ⟨rfl, rfl, htext resp.keys, hjson⟩

/-- C6 witness: the theorem applied at a concrete streamless response. -/
theorem C6_witness :
    (invoke_agent "p" "r" "a" "b" (⟨none, none, ["sessionId"]⟩ : AgentResponse)).2
      = no_stream_text ["sessionId"]
    ∧ (invoke_agent "p" "r" "a" "b" (⟨none, none, ["sessionId"]⟩ : AgentResponse)).2 ≠ "" := by
  have h := C6_no_stream_placeholders "p" "r" "a" "b" ⟨none, none, ["sessionId"]⟩ rfl rfl
  exact ⟨h.2.1, h.2.2.1⟩

/-! ## Claim C7 -/

/-- C7 counterexample: on the bytes payload `[0xFF, 104, 105]`, strict
UTF-8 decoding fails, yet the source returns "hi" — it decodes with
`errors="ignore"` (silently dropping the invalid byte) and never applies
base64; the claimed decode-as-UTF-8-else-base64 behavior (`claim7_decode`)
disagrees with the decoder of the source at this payload. -/
theorem C7_counterexample :
    utf8DecodeStrict? [255, 104, 105] = none
    ∧ decode_chunk_payload (Payload.bytes [255, 104, 105]) = "hi"
    ∧ claim7_decode (Payload.bytes [255, 104, 105])
        ≠ some (decode_chunk_payload (Payload.bytes [255, 104, 105])) := by decide

/-- C7 (amended): a bytes payload is always decoded as UTF-8 with invalid
sequences ignored (dropped), and base64 is never applied to it; base64
decoding is applied exactly when the payload is not a bytes object (the
SDK then hands over a string), with the string form of the payload itself as the
last resort when base64 decoding raises. -/
theorem C7_amended :
    (∀ bs : List Nat, decode_chunk_payload (Payload.bytes bs) = utf8DecodeIgnore bs)
    ∧ (∀ s : String, decode_chunk_payload (Payload.str s)
        = (match b64decodeStr? s with
           | some bs => utf8DecodeIgnore bs
           | none => s)) :=
  ⟨fun _ => rfl, fun _ => rfl⟩

/-! ## Claim C8 -/

/-- C8: in every run that reaches the output-writing stage (the prompt
resolved), if the computed result text is empty or whitespace-only, the text
file (when its write succeeds) receives the fixed placeholder message; and
if no JSON diagnostic was produced, the JSON file (when its write succeeds)
receives the default placeholder JSON document. -/
theorem C8_placeholders (env : Env) (fs : FS) (agent : AgentOutcome)
    (w : WriteOutcome) (p : String) (hok : resolve_prompt env fs = Except.ok p) :
    (pyStrip (computeResult (append_repo_context env p) (region_of env) env agent).2.1 = "" →
       w.textOk = true →
       (mainRun env fs agent w).textFileContents = some empty_text_placeholder)
    ∧ ((computeResult (append_repo_context env p) (region_of env) env agent).1 = none →
       w.jsonOk = true →
       (mainRun env fs agent w).jsonFileContents = some default_json_note) := by
  unfold mainRun
  rw [hok]
  constructor
  · intro ht hw
    simp [hw, finalizeText, ht]
  · intro hj hw
    simp [hw, finalizeJson, hj]

/-- Concrete environment for claim C8: prompt and both agent ids set. -/
def envC8 : Env :=
  { Env.empty with PROMPT := some "hello", AGENT_ID := some "AID", AGENT_ALIAS_ID := some "ALIAS" }

/-- Concrete response for claim C8: a stream that completes without error
but delivers zero chunks, so the result text is empty and no JSON
diagnostic is produced. -/
def respC8 : AgentResponse := ⟨some ⟨[], none⟩, none, ["completion"]⟩

/-- C8 witness: the theorem applied at the concrete empty-stream run; both
placeholders get written. -/
theorem C8_witness :
    (mainRun envC8 ⟨[]⟩ (.ok respC8) ⟨true, true⟩).textFileContents
      = some empty_text_placeholder
    ∧ (mainRun envC8 ⟨[]⟩ (.ok respC8) ⟨true, true⟩).jsonFileContents
      = some default_json_note := by
  have h := C8_placeholders envC8 ⟨[]⟩ (.ok respC8) ⟨true, true⟩ "hello" rfl
  exact ⟨h.1 (by decide) rfl, h.2 (by decide) rfl⟩

/-! ## Claim C9 -/

/-- C9: the two output writes are independent — whatever the write
outcomes, both writes are attempted and the exit code stays 0; moreover the
contents of the text file depend only on the outcome of the text write itself (not on
that of the JSON write), and symmetrically for the JSON file. -/
theorem C9_independent_writes (env : Env) (fs : FS) (agent : AgentOutcome)
    (w w' : WriteOutcome) (p : String) (hok : resolve_prompt env fs = Except.ok p) :
    (mainRun env fs agent w).jsonWriteAttempted = true
    ∧ (mainRun env fs agent w).textWriteAttempted = true
    ∧ (mainRun env fs agent w).exitCode = 0
    ∧ (w.textOk = w'.textOk →
        (mainRun env fs agent w).textFileContents
          = (mainRun env fs agent w').textFileContents)
    ∧ (w.jsonOk = w'.jsonOk →
        (mainRun env fs agent w).jsonFileContents
          = (mainRun env fs agent w').jsonFileContents) := by
  unfold mainRun
  rw [hok]
  refine ⟨rfl, rfl, rfl, ?_, ?_⟩
  · intro h
    simp [h]
  · intro h
    simp [h]

/-- C9 witness: the theorem applied at a concrete run where the JSON write
fails and the text write succeeds — the text file still receives its
contents and the run exits 0. -/
theorem C9_witness :
    (mainRun envC8 ⟨[]⟩ (.ok respC8) ⟨false, true⟩).textWriteAttempted = true
    ∧ (mainRun envC8 ⟨[]⟩ (.ok respC8) ⟨false, true⟩).exitCode = 0
    ∧ (mainRun envC8 ⟨[]⟩ (.ok respC8) ⟨false, true⟩).textFileContents
        = (mainRun envC8 ⟨[]⟩ (.ok respC8) ⟨true, true⟩).textFileContents := by
  have h := C9_independent_writes envC8 ⟨[]⟩ (.ok respC8) ⟨false, true⟩ ⟨true, true⟩
    "hello" rfl
  exact ⟨h.2.1, h.2.2.1, h.2.2.2.1 rfl⟩

/-! ## Claim C10 -/

/-- C10: prompt resolution gives an existing file named by a (non-empty)
`PROMPT_FILE` precedence over the `PROMPT` variable, and the default file
`scripts/prompts/pr_improve_agent_ja.md` precedence over `PROMPT` as well:
whenever either file exists, its contents become the prompt, and the result
is the same for every value of `PROMPT` — the variable is never consulted. -/
theorem C10_prompt_file_precedence (env : Env) (fs : FS) :
    (∀ pf, env.PROMPT_FILE = some pf → pf ≠ "" → fs.isfile pf = true →
       resolve_prompt env fs = Except.ok (fs.read pf)
       ∧ ∀ v, resolve_prompt { env with PROMPT := v } fs = Except.ok (fs.read pf))
    ∧ ((∀ pf, env.PROMPT_FILE = some pf → pf = "" ∨ fs.isfile pf = false) →
       fs.isfile default_prompt_file = true →
       resolve_prompt env fs = Except.ok (fs.read default_prompt_file)
       ∧ ∀ v, resolve_prompt { env with PROMPT := v } fs
           = Except.ok (fs.read default_prompt_file)) := by
  constructor
  · intro pf hpf hne hex
    have h1 : ∀ env2 : Env, env2.PROMPT_FILE = some pf →
        resolve_prompt env2 fs = Except.ok (fs.read pf) := by
      intro env2 h2
      unfold resolve_prompt
      rw [h2]
      simp [hne, hex]
    exact ⟨h1 env hpf, fun v => h1 { env with PROMPT := v } hpf⟩
  · intro hno hdef
    have h1 : ∀ env2 : Env, env2.PROMPT_FILE = env.PROMPT_FILE →
        resolve_prompt env2 fs = Except.ok (fs.read default_prompt_file) := by
      intro env2 h2
      have hfb : resolve_prompt_fallback env2 fs
          = Except.ok (fs.read default_prompt_file) := by
        unfold resolve_prompt_fallback
        rw [hdef]
        simp
      unfold resolve_prompt
      rw [h2]
      cases hpf : env.PROMPT_FILE with
      | none => exact hfb
      | some pf =>
        rcases hno pf hpf with h | h
        · subst h
          simpa using hfb
        · simp [h, hfb]
    exact ⟨h1 env rfl, fun v => h1 { env with PROMPT := v } rfl⟩

/-- Concrete environment for claim C10: `PROMPT`, `PROMPT_FILE` and the
default prompt file all available at once. -/
def envC10 : Env :=
  { Env.empty with PROMPT := some "from env", PROMPT_FILE := some "my_prompt.md" }

/-- Concrete filesystem for claim C10: both the named and the default
prompt files exist with distinct contents. -/
def fsC10 : FS :=
  ⟨[("my_prompt.md", "from named file"), (default_prompt_file, "from default file")]⟩

/-- C10 witness: the theorem applied at a concrete run where both files
exist — the named file wins over both the default file and `PROMPT`, and
changing `PROMPT` does not change the result. -/
theorem C10_witness :
    resolve_prompt envC10 fsC10 = Except.ok "from named file"
    ∧ resolve_prompt { envC10 with PROMPT := none } fsC10
        = Except.ok "from named file" := by
  have h := (C10_prompt_file_precedence envC10 fsC10).1 "my_prompt.md" rfl
    (by decide) rfl
  exact ⟨h.1, h.2 none⟩

end Bedrock
